import Mathlib

/-!
Verification development for `fate_llm/model_zoo/ipr/alexnet.py` (SignAlexNet):
a modified AlexNet whose layers 4, 5, 6 are signature-carrying convolutional
blocks, followed by a linear classifier, with softmax applied in evaluation
mode only.

The file embeds the construction loop of `SignAlexNet.__init__` and the
computation of `SignAlexNet.forward` as Lean definitions, then proves the
specified properties about them.
-/

namespace AlexNet

/-- A constructed stage of the feature pipeline.  `ConvBlock` and
`SignatureConv` are external collaborators; at the level of the construction
loop only the arguments passed to their constructors matter, so a stage is
recorded as the constructor called together with its arguments. -/
inductive Layer : Type
  | maxPool2d (kernel stride : Nat)
  | signatureConv (inp oup kernel stride padding : Nat)
  | convBlock (inp oup kernel stride padding : Nat)
deriving DecidableEq, Repr

/-- `in_channels = 3` from `__init__`. -/
def in_channels : Nat := 3

/-- `maxpoolidx = [1, 3, 7]` from `__init__`. -/
def maxpoolidx : List Nat := [1, 3, 7]

/-- `signed_layer = [4, 5, 6]` from `__init__`. -/
def signed_layer : List Nat := [4, 5, 6]

/-- The output-channel dictionary `oups` of `__init__`; a Python dict lookup
raises `KeyError` on a missing key, embedded as `none`. -/
def oups : Nat → Option Nat
  | 0 => some 64
  | 2 => some 192
  | 4 => some 384
  | 5 => some 256
  | 6 => some 256
  | _ => none

/-- The (kernel, padding) dictionary `kp` of `__init__`. -/
def kp : Nat → Option (Nat × Nat)
  | 0 => some (5, 2)
  | 2 => some (5, 2)
  | 4 => some (3, 1)
  | 5 => some (3, 1)
  | 6 => some (3, 1)
  | _ => none

/-- One iteration of the construction loop `for layeridx in range(8)`:
the state is the list of layers built so far and the running input-channel
count `inp`; failure of a dict lookup aborts construction. -/
def buildStep (acc : Option (List Layer × Nat)) (layeridx : Nat) :
    Option (List Layer × Nat) := do
  let (layers, inp) ← acc
  if layeridx ∈ maxpoolidx then
    pure (layers ++ [Layer.maxPool2d 2 2], inp)
  else do
    let kpv ← kp layeridx
    let k := kpv.1
    let p := kpv.2
    let oup ← oups layeridx
    if layeridx ∈ signed_layer then
      pure (layers ++ [Layer.signatureConv inp oup k 1 p], oup)
    else
      pure (layers ++ [Layer.convBlock inp oup k 1 p], oup)

/-- The full construction loop: starts from the empty layer list and
`inp = in_channels`, iterates `layeridx` over `range(8)`. -/
def buildFeatures : Option (List Layer) :=
  ((List.range 8).foldl buildStep (some ([], in_channels))).map Prod.fst

/-- `nn.Linear(in_features, out_features)` as seen by this module: an opaque
constructor recording its arguments.  `out_features` is whatever value the
caller supplied as `num_classes`, of any type, passed through unchanged. -/
structure Linear (α : Type) where
  in_features : Nat
  out_features : α
deriving DecidableEq, Repr

/-- The constructed `SignAlexNet` object: the `features` sequential pipeline
and the `classifier` linear head. -/
structure SignAlexNet (α : Type) where
  features : List Layer
  classifier : Linear α
deriving DecidableEq, Repr

/-- `SignAlexNet.__init__(num_classes)`: build the 8-stage pipeline, then
`nn.Linear(4 * 4 * 256, num_classes)`.  `num_classes` is used only as the
second argument of `nn.Linear` and is never validated, so the constructor is
polymorphic in its type. -/
def signAlexNet {α : Type} (num_classes : α) : Option (SignAlexNet α) :=
  buildFeatures.map fun fs =>
    { features := fs, classifier := { in_features := 4 * 4 * 256, out_features := num_classes } }

/-- The role a stage plays in the pipeline, for stating the layout claims. -/
inductive Role : Type
  | maxPool
  | signedConvBlock
  | plainConvBlock
deriving DecidableEq, Repr

/-- The role of a constructed layer. -/
def role : Layer → Role
  | Layer.maxPool2d _ _ => Role.maxPool
  | Layer.signatureConv _ _ _ _ _ => Role.signedConvBlock
  | Layer.convBlock _ _ _ _ _ => Role.plainConvBlock

/-- The input-channel argument passed to a convolutional stage
(`none` for pooling stages, which take no channel argument). -/
def inputChannels : Layer → Option Nat
  | Layer.maxPool2d _ _ => none
  | Layer.signatureConv i _ _ _ _ => some i
  | Layer.convBlock i _ _ _ _ => some i

/-- The (input, output) channel arguments of a convolutional stage. -/
def convInOut : Layer → Option (Nat × Nat)
  | Layer.maxPool2d _ _ => none
  | Layer.signatureConv i o _ _ _ => some (i, o)
  | Layer.convBlock i o _ _ _ => some (i, o)

/-- The (output-channels, kernel, stride, padding) arguments of a
convolutional stage (`none` for pooling stages). -/
def convSpec : Layer → Option (Nat × Nat × Nat × Nat)
  | Layer.maxPool2d _ _ => none
  | Layer.signatureConv _ o k s p => some (o, k, s, p)
  | Layer.convBlock _ o k s p => some (o, k, s, p)

/-- Channel chaining: walking the layer list with a running channel count `c`,
every convolutional stage must declare input channels equal to `c` and updates
`c` to its output channels; pooling stages leave `c` unchanged. -/
def chanChainedFrom : Nat → List Layer → Bool
  | _, [] => true
  | c, l :: ls =>
    match convInOut l with
    | none => chanChainedFrom c ls
    | some (i, o) => i = c && chanChainedFrom o ls

/-! ### Shape semantics of the pipeline

`SignatureConv` and `ConvBlock` live in `fate_llm.model_zoo.ipr.sign_block`,
outside this module; `nn.MaxPool2d` and `nn.Linear` are library primitives.
Their effect on tensor shapes is modelled from the spec below. -/

/-- A per-example feature-map shape: (channels, height, width). -/
abbrev Shape3 : Type := Nat × Nat × Nat

/-- Modelled from the spec: the shape behavior of the three stage kinds.
`SignatureConv` and `ConvBlock` (missing module `sign_block`) each "consume a
feature tensor and parameters, and produce a transformed feature tensor"
whose channel depth is the configured output-channel count; with kernel `k`,
stride `s` and padding `p` a spatial extent `h` becomes `(h + 2p - k)/s + 1`
(standard 2-D convolution arithmetic, consistent with the spec's fixed
32×32 → 4×4 resolution accounting).  `nn.MaxPool2d(2, 2)` "halves spatial
dimensions": `h` becomes `(h - k)/s + 1` with `k = s = 2`.  A channel
mismatch or an undersized input is a failure of the underlying primitive,
embedded as `none`. -/
def layerOutShape : Layer → Shape3 → Option Shape3
  | Layer.maxPool2d k s, (c, h, w) =>
    if k ≤ h ∧ k ≤ w then some (c, (h - k) / s + 1, (w - k) / s + 1) else none
  | Layer.signatureConv i o k s p, (c, h, w) =>
    if c = i ∧ k ≤ h + 2 * p ∧ k ≤ w + 2 * p then
      some (o, (h + 2 * p - k) / s + 1, (w + 2 * p - k) / s + 1)
    else none
  | Layer.convBlock i o k s p, (c, h, w) =>
    if c = i ∧ k ≤ h + 2 * p ∧ k ≤ w + 2 * p then
      some (o, (h + 2 * p - k) / s + 1, (w + 2 * p - k) / s + 1)
    else none

/-- Threading a per-example shape through the pipeline, stage by stage, in
order (the loop `for m in self.features: x = m(x)`). -/
def featuresOutShape : List Layer → Shape3 → Option Shape3
  | [], s => some s
  | l :: ls, s => (layerOutShape l s).bind (featuresOutShape ls)

/-- Number of scalars in a per-example feature map: what
`x.view(x.size(0), -1)` flattens each example to. -/
def flatSize (s : Shape3) : Nat := s.1 * s.2.1 * s.2.2

/-- Shape of the output of `SignAlexNet.forward` on a batch of `B` examples
of per-example shape `s`: thread the pipeline, flatten, and apply the
classifier, which requires the flattened width to equal its `in_features`
(otherwise the linear primitive fails).  Softmax preserves shape, so the
result does not depend on the training flag. -/
def forwardShape {α : Type} (m : SignAlexNet α) (B : Nat) (s : Shape3) :
    Option (Nat × α) := do
  let s' ← featuresOutShape m.features s
  if flatSize s' = m.classifier.in_features then
    pure (B, m.classifier.out_features)
  else none

/-! ### Value semantics of `forward`

The learned numeric behavior of the eight stages, of the flatten view and of
the linear classifier is owned by external collaborators (torch and
`sign_block`); `forward` composes them.  The composition is embedded over an
abstract per-example feature type `F`, an arbitrary interpretation of each
stage as a function `F → F`, a flatten map into `Fin d → ℝ` and a classifier
map into `Fin n → ℝ`; all claims about `forward` hold for every
interpretation. -/

/-- `for m in self.features: x = m(x)` — fold the stage functions over the
input, in order. -/
def runLayers {F : Type} (fns : List (F → F)) (x : F) : F :=
  fns.foldl (fun a f => f a) x

/-- The model state `forward` reads: the interpretations of the pipeline
stages, of the flatten view and of the classifier (their learned parameters
included), and the ambient `self.training` flag. -/
structure ModelParams (F : Type) (d n : Nat) where
  featureFns : List (F → F)
  flattenFn : F → Fin d → ℝ
  classifierFn : (Fin d → ℝ) → Fin n → ℝ
  training : Bool

/-- `nn.functional.softmax(x, dim=1)` on one row of logits. -/
noncomputable def softmax {n : Nat} (v : Fin n → ℝ) : Fin n → ℝ :=
  fun i => Real.exp (v i) / ∑ j, Real.exp (v j)

/-- The pre-branch part of `forward` on one example: thread the pipeline,
flatten, apply the classifier.  These are the raw unnormalized class
scores. -/
def rawScores {F : Type} {d n : Nat} (m : ModelParams F d n) (x : F) :
    Fin n → ℝ :=
  m.classifierFn (m.flattenFn (runLayers m.featureFns x))

/-- `SignAlexNet.forward` on a batch of `B` examples: raw scores in training
mode, row-wise softmax of them in evaluation mode. -/
noncomputable def forward {F : Type} {d n B : Nat} (m : ModelParams F d n)
    (x : Fin B → F) : Fin B → Fin n → ℝ :=
  if m.training then
    fun b => rawScores m (x b)
  else
    fun b => softmax (rawScores m (x b))

/-- `forward`, instrumented to also report which branch of the final
conditional was taken (`true` for the training branch). -/
noncomputable def forwardTraced {F : Type} {d n B : Nat}
    (m : ModelParams F d n) (x : Fin B → F) :
    (Fin B → Fin n → ℝ) × Bool :=
  if m.training then
    ((fun b => rawScores m (x b)), true)
  else
    ((fun b => softmax (rawScores m (x b))), false)

/-- `forward` with the model state threaded explicitly: Python's `forward`
body only reads `self`, so the state comes back unchanged. -/
noncomputable def forwardSt {F : Type} {d n B : Nat} (m : ModelParams F d n)
    (x : Fin B → F) : (Fin B → Fin n → ℝ) × ModelParams F d n :=
  (forward m x, m)

/-! ### Concrete instantiations used by witnesses -/

/-- A one-example batch over the trivial feature type. -/
def unitBatch : Fin 1 → Unit := fun _ => ()

/-- A concrete model state in training mode (trivial interpretations). -/
noncomputable def trainParams : ModelParams Unit 1 2 :=
  { featureFns := []
    flattenFn := fun _ _ => 0
    classifierFn := fun _ _ => 0
    training := true }

/-- A concrete model state in evaluation mode (trivial interpretations). -/
noncomputable def evalParams : ModelParams Unit 1 2 :=
  { featureFns := []
    flattenFn := fun _ _ => 0
    classifierFn := fun _ _ => 0
    training := false }

/-! ### Theorems -/

/-- C1: for every model built with `num_classes = N` and every batch of shape
(B, 3, 32, 32), `forward` in training mode threads the 8 pre-built layers in
order, flattens each example, applies the linear classifier, and returns the
raw scores of shape (B, N) — no softmax is applied. -/
theorem forward_train_shape_and_raw (N B : Nat) {F : Type} {d n nB : Nat}
    (m : ModelParams F d n) (hm : m.training = true) (x : Fin nB → F) :
    (signAlexNet N).bind (fun net => forwardShape net B (3, 32, 32)) = some (B, N) ∧
    forward m x = fun b => m.classifierFn (m.flattenFn (runLayers m.featureFns (x b))) := by
  refine ⟨rfl, ?_⟩
  funext b
  simp [forward, hm, rawScores]

/-- Witness for C1 at `N = 10`, `B = 4`, with the concrete training-mode
model state `trainParams` on a one-example batch. -/
theorem forward_train_shape_and_raw_witness :
    trainParams.training = true ∧
    ((signAlexNet 10).bind (fun net => forwardShape net 4 (3, 32, 32)) = some (4, 10) ∧
      forward trainParams unitBatch
        = fun b => trainParams.classifierFn
            (trainParams.flattenFn (runLayers trainParams.featureFns (unitBatch b)))) :=
  ⟨rfl, forward_train_shape_and_raw 10 4 trainParams rfl unitBatch⟩

/-- C2: with identical input and identical parameters, `forward` in
evaluation mode returns exactly the row-wise softmax of what `forward` in
training mode returns; only the ambient `training` flag differs. -/
theorem eval_forward_is_softmax_of_train {F : Type} {d n B : Nat}
    (m : ModelParams F d n) (x : Fin B → F) :
    forward { m with training := false } x
      = fun b => softmax (forward { m with training := true } x b) := by
  funext b
  simp [forward, rawScores]

/-- C3: for every `num_classes`, the pipeline has exactly 8 stages; positions
1, 3, 7 are max-pooling, positions 4, 5, 6 are `SignatureConv` blocks, and
positions 0 and 2 are plain `ConvBlock`s. -/
theorem pipeline_roles {α : Type} (nc : α) :
    (signAlexNet nc).map (fun m => m.features.map role)
      = some [Role.plainConvBlock, Role.maxPool, Role.plainConvBlock, Role.maxPool,
              Role.signedConvBlock, Role.signedConvBlock, Role.signedConvBlock, Role.maxPool] ∧
    (signAlexNet nc).map (fun m => m.features.length) = some 8 :=
  ⟨rfl, rfl⟩

/-- C4: position 0 takes 3 input channels, and every later convolutional
position takes as input channels the output channels of the most recent
preceding convolutional layer (pooling does not change the count): inputs
are 64 at position 2, 192 at position 4, 384 at position 5 and 256 at
position 6. -/
theorem channel_chaining {α : Type} (nc : α) :
    (signAlexNet nc).map (fun m => m.features.map inputChannels)
      = some [some 3, none, some 64, none, some 192, some 384, some 256, none] ∧
    (signAlexNet nc).map (fun m => chanChainedFrom in_channels m.features) = some true :=
  ⟨rfl, rfl⟩

/-- C5: every convolutional stage is built with stride 1 and with the
output-channel count and (kernel, padding) pair of the fixed position-keyed
tables: channels {0:64, 2:192, 4:384, 5:256, 6:256}, (kernel, padding)
{0:(5,2), 2:(5,2), 4:(3,1), 5:(3,1), 6:(3,1)}. -/
theorem conv_stage_specs {α : Type} (nc : α) :
    (signAlexNet nc).map (fun m => m.features.map convSpec)
      = some [some (64, 5, 1, 2), none, some (192, 5, 1, 2), none,
              some (384, 3, 1, 1), some (256, 3, 1, 1), some (256, 3, 1, 1), none] :=
  rfl

/-- C6: the classifier is a single linear transform of input width
4·4·256 = 4096 and output width `num_classes`; models built with
`num_classes` 2 and 10 have classifier output widths 2 and 10 and identical
feature pipelines. -/
theorem classifier_dims :
    (∀ (α : Type) (nc : α),
      (signAlexNet nc).map (fun m => (m.classifier.in_features, m.classifier.out_features))
        = some (4096, nc)) ∧
    (signAlexNet (2 : Nat)).map (fun m => m.classifier.out_features) = some 2 ∧
    (signAlexNet (10 : Nat)).map (fun m => m.classifier.out_features) = some 10 ∧
    (signAlexNet (2 : Nat)).map (fun m => m.features)
      = (signAlexNet (10 : Nat)).map (fun m => m.features) :=
  ⟨fun _ _ => rfl, rfl, rfl, rfl⟩

/-- C7: in evaluation mode each output row is a probability distribution
over the class dimension: every entry is non-negative and the row sums
to 1. -/
theorem eval_output_is_distribution {F : Type} {d n B : Nat} (hn : 0 < n)
    (m : ModelParams F d n) (hm : m.training = false) (x : Fin B → F) (b : Fin B) :
    (∀ i, 0 ≤ forward m x b i) ∧ (∑ i, forward m x b i) = 1 := by
  have hne : (Finset.univ : Finset (Fin n)).Nonempty := by
    haveI : Nonempty (Fin n) := Fin.pos_iff_nonempty.mp hn
    exact Finset.univ_nonempty
  have hpos : 0 < ∑ j, Real.exp (rawScores m (x b) j) :=
    Finset.sum_pos (fun j _ => Real.exp_pos _) hne
  constructor
  · intro i
    simp only [forward, hm, if_neg Bool.false_ne_true, softmax]
    exact div_nonneg (Real.exp_pos _).le hpos.le
  · simp only [forward, hm, if_neg Bool.false_ne_true, softmax]
    rw [← Finset.sum_div]
    exact div_self hpos.ne'

/-- Witness for C7 at `n = 2` with the concrete evaluation-mode model state
`evalParams` on a one-example batch. -/
theorem eval_output_is_distribution_witness :
    (0 < 2 ∧ evalParams.training = false) ∧
    ((∀ i, 0 ≤ forward evalParams unitBatch 0 i) ∧
      (∑ i, forward evalParams unitBatch 0 i) = 1) :=
  ⟨⟨by decide, rfl⟩,
    eval_output_is_distribution (by decide) evalParams rfl unitBatch 0⟩

/-- C8: construction raises no error for any supplied `num_classes`: the
value is not validated by `SignAlexNet` and is passed through unchanged, of
whatever type, as the output width of the linear primitive. -/
theorem construction_total_passthrough (α : Type) (nc : α) :
    (signAlexNet nc).isSome = true ∧
    (signAlexNet nc).map (fun m => m.classifier.out_features) = some nc :=
  ⟨rfl, rfl⟩

/-- C9: `forward` is deterministic and side-effect-free: identical model
state and identical input give identical output; the single branch it takes
is the ambient `training` flag, independent of the input values; and the
model state comes back from `forwardSt` unchanged. -/
theorem forward_deterministic_pure {F : Type} {d n B : Nat}
    (m₁ m₂ : ModelParams F d n) (x₁ x₂ y : Fin B → F)
    (hm : m₁ = m₂) (hx : x₁ = x₂) :
    forward m₁ x₁ = forward m₂ x₂ ∧
    (forwardTraced m₁ y).1 = forward m₁ y ∧
    (forwardTraced m₁ y).2 = m₁.training ∧
    (forwardSt m₁ y).2 = m₁ := by
  subst hm hx
  refine ⟨rfl, ?_, ?_, rfl⟩
  · by_cases h : m₁.training <;> simp [forward, forwardTraced, h]
  · by_cases h : m₁.training <;> simp [forwardTraced, h]

/-- Witness for C9 with the concrete evaluation-mode model state
`evalParams` on concrete one-example batches. -/
theorem forward_deterministic_pure_witness :
    (evalParams = evalParams ∧ unitBatch = unitBatch) ∧
    (forward evalParams unitBatch = forward evalParams unitBatch ∧
      (forwardTraced evalParams unitBatch).1 = forward evalParams unitBatch ∧
      (forwardTraced evalParams unitBatch).2 = evalParams.training ∧
      (forwardSt evalParams unitBatch).2 = evalParams) :=
  ⟨⟨rfl, rfl⟩,
    forward_deterministic_pure evalParams evalParams unitBatch unitBatch unitBatch rfl rfl⟩

/-- C10: the construction loop's table lookups are total — every position in
0..7 outside the max-pooling set {1, 3, 7} is a key of both `oups` and `kp`,
so building the pipeline never hits a missing key. -/
theorem table_lookups_total :
    (∀ i, i < 8 → i ∉ maxpoolidx → (oups i).isSome = true ∧ (kp i).isSome = true) ∧
    buildFeatures.isSome = true := by
  refine ⟨?_, rfl⟩
  decide

/-- Witness for C10 at position 0. -/
theorem table_lookups_total_witness :
    ((0 : Nat) < 8 ∧ (0 : Nat) ∉ maxpoolidx) ∧
    ((oups 0).isSome = true ∧ (kp 0).isSome = true) :=
  ⟨⟨by decide, by decide⟩, table_lookups_total.1 0 (by decide) (by decide)⟩

end AlexNet
